import Mathlib

/-!
Shallow embedding of the real-time polling backend (MANYA-SHUKLA/Real-time-polling)
for checking its natural-language specification.

Time is modelled as an integer epoch timestamp (`now : Int`, milliseconds, matching
JavaScript `Date.now()` / `new Date()` comparisons); rate-limiter time is in whole
seconds (`nowSec : Nat`, matching `Math.floor(Date.now() / 1000)` in the source).
Identifiers are natural numbers except where the source manipulates them as strings.
-/

deriving instance DecidableEq for Except

namespace Polling

/-! ## Poll model (src/backend/models/Poll.js) -/

/-- A stored Poll document, translated from the mongoose schema in
src/backend/models/Poll.js. -/
structure Poll where
  id : Nat
  question : String
  creator : Nat
  isPublished : Bool
  expiresAt : Option Int
  allowVotingAfterExpiry : Bool
  showResultsAfterExpiry : Bool
  autoArchive : Bool
deriving Repr, DecidableEq

/-- Virtual `isExpired` (Poll.js lines 90-93): `this.expiresAt && new Date() > this.expiresAt`.
A null `expiresAt` is falsy, so the poll is not expired; otherwise expired exactly when
the current time is strictly past `expiresAt`. -/
def Poll.isExpired (now : Int) (p : Poll) : Bool :=
  match p.expiresAt with
  | none => false
  | some t => t < now

/-- Virtual `canVote` (Poll.js lines 95-100): false if unpublished; if expired,
equal to `allowVotingAfterExpiry`; otherwise true. -/
def Poll.canVote (now : Int) (p : Poll) : Bool :=
  if !p.isPublished then false
  else if p.isExpired now then p.allowVotingAfterExpiry
  else true

/-- Virtual `canViewResults` (Poll.js lines 102-106). -/
def Poll.canViewResults (now : Int) (p : Poll) : Bool :=
  if p.isExpired now then p.showResultsAfterExpiry
  else true

/-- The computed lifecycle state reported by the `status` virtual. -/
inductive PollStatus where
  | draft
  | active
  | expired
deriving Repr, DecidableEq

/-- Virtual `status` (Poll.js lines 64-69): 'draft' if unpublished, 'expired' if
`expiresAt` is set and strictly before now, else 'active'. -/
def Poll.status (now : Int) (p : Poll) : PollStatus :=
  if !p.isPublished then .draft
  else
    match p.expiresAt with
    | some t => if t < now then .expired else .active
    | none => .active

/-- `Poll.prototype.save()` including the `pre('save')` middleware
(Poll.js lines 109-115): the save is rejected with the error
"Expiration date must be in the future" whenever `expiresAt` is set and is not
in the future (`expiresAt ≤ now`); otherwise the document is stored as given. -/
def savePoll (now : Int) (p : Poll) : Except String Poll :=
  match p.expiresAt with
  | some t => if t ≤ now then .error "Expiration date must be in the future" else .ok p
  | none => .ok p

/-! ## Options, votes and the database state -/

/-- A PollOption document (src/unnamed/part_000 schema): text plus owning poll. -/
structure PollOption where
  id : Nat
  poll : Nat
  text : String
deriving Repr, DecidableEq

/-- A Vote document: voter, poll, chosen option. -/
structure Vote where
  user : Nat
  poll : Nat
  pollOption : Nat
deriving Repr, DecidableEq

/-- The durable store: all polls, options and votes. -/
structure DB where
  polls : List Poll
  options : List PollOption
  votes : List Vote
deriving Repr, DecidableEq

/-- `Poll.findById(id)`. -/
def DB.findPoll (db : DB) (id : Nat) : Option Poll :=
  db.polls.find? (fun p => p.id == id)

/-- `PollOption.findOne({ _id: optionId, poll: pollId })` (votes.js line 37). -/
def DB.findOption (db : DB) (optionId pollId : Nat) : Option PollOption :=
  db.options.find? (fun o => o.id == optionId && o.poll == pollId)

/-- `Vote.findOne({ user, poll })` (votes.js line 43). -/
def DB.findVote (db : DB) (userId pollId : Nat) : Option Vote :=
  db.votes.find? (fun v => v.user == userId && v.poll == pollId)

/-- Modelled from the spec: the Vote model file (src/backend/models/Vote.js) is not
under src/; per the spec's data model, a Vote is "unique on (voterId, pollId) —
enforced by the storage layer", so the storage-level insert of `vote.save()`
rejects a second vote for the same (voterId, pollId) with a duplicate-key error
and otherwise appends the document. -/
def DB.insertVote (db : DB) (v : Vote) : Except String DB :=
  if db.votes.any (fun w => w.user == v.user && w.poll == v.poll) then
    .error "E11000 duplicate key"
  else
    .ok { db with votes := db.votes ++ [v] }

/-- `db.updatePoll p` stores the modified poll document back in place of the stored
document with the same id (the effect of a successful `poll.save()`). -/
def DB.updatePoll (db : DB) (p : Poll) : DB :=
  { db with polls := db.polls.map (fun q => if q.id == p.id then p else q) }

/-! ## Vote submission (src/backend/routes/votes.js, POST /) -/

/-- The error outcomes of the vote-submission handler, one per early-return branch
of votes.js plus the catch-all for a failing `vote.save()`. -/
inductive VoteError where
  | pollNotFound
  | notPublished
  | pollExpired
  | invalidOption
  | alreadyVoted
  | saveFailed (msg : String)
deriving Repr, DecidableEq

/-- The HTTP status each error branch responds with: 404 for a missing poll
(votes.js line 19), 400 for everything else (lines 24, 29, 39, 45, 84). -/
def VoteError.httpStatus : VoteError → Nat
  | .pollNotFound => 404
  | _ => 400

/-- Per-option tallies exactly as votes.js lines 57-63 computes them: for every
option of the poll, the number of votes of that poll whose `pollOption` is it. -/
def voteCountsFor (db : DB) (pollId : Nat) : List (Nat × Nat) :=
  (db.options.filter (fun o => o.poll == pollId)).map (fun o =>
    (o.id, (db.votes.filter (fun v => v.poll == pollId && v.pollOption == o.id)).length))

/-- Total vote count for a poll: `votes.length` in votes.js. -/
def totalVotesFor (db : DB) (pollId : Nat) : Nat :=
  (db.votes.filter (fun v => v.poll == pollId)).length

/-- The 201 response body of a successful vote (votes.js lines 76-82). -/
structure SuccessBody where
  voteCounts : List (Nat × Nat)
  totalVotes : Nat
  pollStatus : PollStatus
  expiresAt : Option Int
deriving Repr, DecidableEq

/-- The payload handed to `broadcastToPoll` on a successful vote
(votes.js lines 66-74). -/
structure VoteBroadcast where
  pollId : Nat
  voteCounts : List (Nat × Nat)
  totalVotes : Nat
  isExpired : Bool
deriving Repr, DecidableEq

/-- Everything a single handler run produces: the HTTP response, the database
after the run, and the broadcasts issued. -/
structure SubmitOutcome where
  result : Except VoteError SuccessBody
  db : DB
  broadcasts : List VoteBroadcast
deriving Repr, DecidableEq

/-- The POST / handler of src/backend/routes/votes.js (after auth, rate limit and
field validation), translated branch by branch in source order: poll lookup,
publish gate, expiry gate, option lookup, duplicate-vote lookup, insert,
tally recomputation, broadcast, 201 response. A failing insert lands in the
catch block (line 83) as a 400 with the raw error message. -/
def submitVote (now : Int) (db : DB) (pollId optionId userId : Nat) : SubmitOutcome :=
  match db.findPoll pollId with
  | none => ⟨.error .pollNotFound, db, []⟩
  | some pollDoc =>
    if !pollDoc.isPublished then ⟨.error .notPublished, db, []⟩
    else if pollDoc.isExpired now && !pollDoc.allowVotingAfterExpiry then
      ⟨.error .pollExpired, db, []⟩
    else
      match db.findOption optionId pollId with
      | none => ⟨.error .invalidOption, db, []⟩
      | some _ =>
        match db.findVote userId pollId with
        | some _ => ⟨.error .alreadyVoted, db, []⟩
        | none =>
          match db.insertVote ⟨userId, pollId, optionId⟩ with
          | .error m => ⟨.error (.saveFailed m), db, []⟩
          | .ok db' =>
            let counts := voteCountsFor db' pollId
            let total := totalVotesFor db' pollId
            ⟨.ok ⟨counts, total, pollDoc.status now, pollDoc.expiresAt⟩,
             db',
             [⟨pollId, counts, total, pollDoc.isExpired now⟩]⟩

/-! ## Interleaved vote submissions (the check-then-insert race)

The handler touches the store twice: once in its read-only check phase
(poll lookup, gating, option lookup, duplicate-vote `findOne`) and once in
`vote.save()`. Two concurrent requests may both run their check phase before
either insert commits; the functions below model that interleaving. -/

/-- One vote request: the body fields `poll`, `pollOption` and the authenticated
user id. -/
structure VoteRequest where
  poll : Nat
  option : Nat
  user : Nat
deriving Repr, DecidableEq

/-- The read-only check phase of the handler (votes.js lines 17-46): every test the
code performs before `vote.save()`, returning the first failing branch, or `none`
when the request may proceed to the insert. -/
def submitVoteChecks (now : Int) (db : DB) (r : VoteRequest) : Option VoteError :=
  match db.findPoll r.poll with
  | none => some .pollNotFound
  | some pollDoc =>
    if !pollDoc.isPublished then some .notPublished
    else if pollDoc.isExpired now && !pollDoc.allowVotingAfterExpiry then some .pollExpired
    else if (db.findOption r.option r.poll).isNone then some .invalidOption
    else if (db.findVote r.user r.poll).isSome then some .alreadyVoted
    else none

/-- Outcome of one session in an interleaved execution. -/
inductive SessionResult where
  | ok
  | err (e : VoteError)
deriving Repr, DecidableEq

/-- The insert phase of one session: a session whose check phase already failed
returns that error without touching the store; otherwise it runs `vote.save()`
against the current store, a duplicate-key rejection landing in the catch block
as `saveFailed`. -/
def raceStep (db : DB) (r : VoteRequest) (pre : Option VoteError) : SessionResult × DB :=
  match pre with
  | some e => (.err e, db)
  | none =>
    match db.insertVote ⟨r.user, r.poll, r.option⟩ with
    | .error m => (.err (.saveFailed m), db)
    | .ok db' => (.ok, db')

/-- The interleaving (A.checks, B.checks, A.save, B.save) of two concurrent vote
submissions: both check phases — in particular both duplicate-vote `findOne`
calls — read the initial store before either insert commits, then the inserts
run in order. -/
def raceOutcome (now : Int) (db0 : DB) (a b : VoteRequest) :
    SessionResult × SessionResult × DB :=
  let ra := submitVoteChecks now db0 a
  let rb := submitVoteChecks now db0 b
  let (resA, db1) := raceStep db0 a ra
  let (resB, db2) := raceStep db1 b rb
  (resA, resB, db2)

/-! ## Rate limiting (src/backend/middleware/rateLimit.js) -/

/-- One window entry of `CustomStore.hits`: hit count and the window reset time
in whole seconds (`Math.floor(Date.now() / 1000) + 60`). -/
structure RateEntry where
  count : Nat
  resetTime : Nat
deriving Repr, DecidableEq

/-- `CustomStore.hits`, a map from identity key to its window entry. -/
abbrev RateStore := List (String × RateEntry)

/-- `CustomStore.increment(key)` (rateLimit.js lines 121-137): fetch the entry
(defaulting to count 0, reset now+60), restart the window at count 1 when
`now > resetTime`, otherwise bump the count; store and return the entry. -/
def storeIncrement (nowSec : Nat) (st : RateStore) (key : String) : RateEntry × RateStore :=
  let current : RateEntry :=
    match st.lookup key with
    | some e => e
    | none => ⟨0, nowSec + 60⟩
  let updated : RateEntry :=
    if current.resetTime < nowSec then ⟨1, nowSec + 60⟩
    else ⟨current.count + 1, current.resetTime⟩
  (updated, (key, updated) :: st.filter (fun kv => kv.1 ≠ key))

/-- `Math.ceil(x / 1000)` for a non-negative integer x. -/
def ceilDiv1000 (x : Nat) : Nat := (x + 999) / 1000

/-- The decision of the vote rate-limit middleware for one request. -/
inductive Decision where
  | allowed
  | limited (retryAfter : Int)
deriving Repr, DecidableEq

/-- `enhancedVoteLimiter` (rateLimit.js lines 153-181, exported as `voteLimiter`):
skip for admins; otherwise increment the custom store and, when the hit count
exceeds `max: 5`, reject with
`retryAfter = Math.ceil(resetTime / 1000) - Math.floor(Date.now() / 1000)`
— note the store's `resetTime` is already in seconds. -/
def voteLimiterStep (nowSec : Nat) (isAdmin : Bool) (st : RateStore) (key : String) :
    Decision × RateStore :=
  if isAdmin then (.allowed, st)
  else
    let (e, st') := storeIncrement nowSec st key
    if 5 < e.count then
      (.limited ((ceilDiv1000 e.resetTime : Int) - (nowSec : Int)), st')
    else (.allowed, st')

/-- Run a sequence of requests for one key through the vote limiter, returning the
decision for each request in order. -/
def voteLimiterRun (key : String) : List Nat → RateStore → List Decision
  | [], _ => []
  | t :: ts, st =>
    let (d, st') := voteLimiterStep t false st key
    d :: voteLimiterRun key ts st'

/-- The full POST /api/votes route: the rate-limit middleware in front of the
handler. A limited request never reaches the handler. -/
inductive VotesRouteResponse where
  | rateLimited (retryAfter : Int)
  | err (e : VoteError)
  | ok (body : SuccessBody)
deriving Repr, DecidableEq

/-- Result of one request against the full vote route. -/
structure VotesRouteResult where
  response : VotesRouteResponse
  db : DB
  broadcasts : List VoteBroadcast
  store : RateStore
deriving Repr, DecidableEq

/-- POST /api/votes end to end: `voteLimiter` (keyed `vote:{userId}:{pollId}`,
rateLimit.js lines 157-162) then the votes.js handler. `nowSec` is
`Math.floor(now / 1000)`. -/
def postVoteRoute (now : Int) (nowSec : Nat) (isAdmin : Bool) (st : RateStore)
    (db : DB) (pollId optionId userId : Nat) : VotesRouteResult :=
  let key := "vote:" ++ toString userId ++ ":" ++ toString pollId
  match voteLimiterStep nowSec isAdmin st key with
  | (.limited r, st') => ⟨.rateLimited r, db, [], st'⟩
  | (.allowed, st') =>
    let o := submitVote now db pollId optionId userId
    match o.result with
    | .error e => ⟨.err e, o.db, o.broadcasts, st'⟩
    | .ok b => ⟨.ok b, o.db, o.broadcasts, st'⟩

/-! ## Poll lifecycle routes (src/unnamed/part_002: publish, archive) -/

/-- The outcomes of the PATCH /:id/publish and /:id/archive handlers. -/
inductive PatchResult where
  | notFound
  | forbidden
  | invalidState (msg : String)
  | saveError (msg : String)
  | ok
deriving Repr, DecidableEq

/-- PATCH /:id/publish (part_002 lines 593-643): 404 when absent, 403 for a
non-creator, 400 "Poll is already published" when already published, otherwise
set `isPublished := true` and save (the catch block turning a save error into a
400). -/
def publishRoute (now : Int) (db : DB) (pollId userId : Nat) : PatchResult × DB :=
  match db.findPoll pollId with
  | none => (.notFound, db)
  | some poll =>
    if poll.creator ≠ userId then (.forbidden, db)
    else if poll.isPublished then (.invalidState "Poll is already published", db)
    else
      match savePoll now { poll with isPublished := true } with
      | .error m => (.saveError m, db)
      | .ok p => (.ok, db.updatePoll p)

/-- PATCH /:id/archive (part_002 lines 699-734): 404 when absent, 403 for a
non-creator, 400 "Only expired polls can be archived" when not expired,
400 "Poll is already archived" when already unpublished, otherwise set
`isPublished := false` and save (the catch block turning a save error into a
400). -/
def archiveRoute (now : Int) (db : DB) (pollId userId : Nat) : PatchResult × DB :=
  match db.findPoll pollId with
  | none => (.notFound, db)
  | some poll =>
    if poll.creator ≠ userId then (.forbidden, db)
    else if !poll.isExpired now then (.invalidState "Only expired polls can be archived", db)
    else if !poll.isPublished then (.invalidState "Poll is already archived", db)
    else
      match savePoll now { poll with isPublished := false } with
      | .error m => (.saveError m, db)
      | .ok p => (.ok, db.updatePoll p)

/-! ## Auto-archive sweep (Poll.js: findExpired, cleanupExpiredPolls) -/

/-- `Poll.findExpired()` (Poll.js lines 129-134): polls with `isPublished: true`
and `expiresAt: { $lte: now }` (a null `expiresAt` does not match `$lte`). -/
def findExpired (now : Int) (db : DB) : List Poll :=
  db.polls.filter (fun p =>
    p.isPublished &&
      match p.expiresAt with
      | some t => t ≤ now
      | none => false)

/-- The `for…of` loop of `cleanupExpiredPolls` (Poll.js lines 140-145): for each
expired poll with `autoArchive`, set `isPublished := false` and `await poll.save()`.
There is no try/catch around the body, so a rejected save aborts the whole loop;
the store keeps whatever earlier iterations committed. -/
def cleanupLoop (now : Int) : List Poll → DB → DB × Option String
  | [], db => (db, none)
  | p :: rest, db =>
    if p.autoArchive then
      match savePoll now { p with isPublished := false } with
      | .error m => (db, some m)
      | .ok p' => cleanupLoop now rest (db.updatePoll p')
    else cleanupLoop now rest db

/-- `Poll.cleanupExpiredPolls()` (Poll.js lines 137-148): sweep `findExpired()`,
archiving each `autoArchive` poll; returns the store after the sweep, the error
that aborted it (if any), and — when it completes — `expiredPolls.length`. -/
def cleanupExpiredPolls (now : Int) (db : DB) : DB × Option String × Nat :=
  let expired := findExpired now db
  let (db', e) := cleanupLoop now expired db
  (db', e, expired.length)

/-! ## Connection registry and broadcast (src/unnamed/part_004) -/

/-- One registered WebSocket connection as `broadcastToPoll` sees it: whether its
`readyState` is OPEN, its current `ws.pollId` subscription, and whether
`client.send` throws for it. -/
structure WsClient where
  opened : Bool
  pollId : Option String
  sendFails : Bool
deriving Repr, DecidableEq

/-- A frame delivered by a broadcast: the payload plus the server timestamp the
code spreads into it (part_004 lines 251-254). -/
structure BroadcastFrame where
  data : String
  timestamp : Int
deriving Repr, DecidableEq

/-- A hexadecimal digit, either case. -/
def isHexDigit (c : Char) : Bool :=
  c.isDigit || ('a' ≤ c && c ≤ 'f') || ('A' ≤ c && c ≤ 'F')

/-- Modelled from the spec: `mongoose.Types.ObjectId.isValid` is library code; the
spec constrains poll identifiers to "their canonical id alphabet", the 24-character
hexadecimal ObjectId form. -/
def isValidObjectId (s : String) : Bool :=
  s.length == 24 && s.toList.all isHexDigit

/-- The `wss.clients.forEach` loop of `broadcastToPoll` (part_004 lines 246-260):
clients are visited in order and indexed from `i`; an open client subscribed to
the poll receives the stamped payload and bumps the count, a throwing send is
caught and skipped, every other client is ignored. Returns the success count and
the deliveries (client index, frame). -/
def broadcastLoop (now : Int) (pollId data : String) :
    List WsClient → Nat → Nat × List (Nat × BroadcastFrame)
  | [], _ => (0, [])
  | c :: cs, i =>
    let (n, ds) := broadcastLoop now pollId data cs (i + 1)
    if c.opened && c.pollId == some pollId then
      if c.sendFails then (n, ds)
      else (n + 1, (i, ⟨data, now⟩) :: ds)
    else (n, ds)

/-- `broadcastToPoll(pollId, data)` (part_004 lines 237-264): validate the poll id
(returning 0 deliveries when malformed), then send the timestamp-stamped payload
to every open client subscribed to the poll, counting successful sends. -/
def broadcastToPoll (now : Int) (pollId data : String) (clients : List WsClient) :
    Nat × List (Nat × BroadcastFrame) :=
  if !isValidObjectId pollId then (0, [])
  else broadcastLoop now pollId data clients 0

/-! ## WebSocket inbound message handling (src/unnamed/part_004, lines 129-216) -/

/-- A JavaScript field value as the message handler distinguishes them: a string,
or anything else. -/
inductive JsVal where
  | str (s : String)
  | other
deriving Repr, DecidableEq

/-- A successfully parsed inbound message: the optional `type` and `pollId`
fields. -/
structure ParsedMsg where
  type : Option JsVal
  pollId : Option JsVal
deriving Repr, DecidableEq

/-- A raw inbound WebSocket message: its byte length, and its JSON parse
(`none` when `JSON.parse` throws). -/
structure WsInbound where
  size : Nat
  parsed : Option ParsedMsg
deriving Repr, DecidableEq

/-- The server→client frames the message handler can emit. -/
inductive OutFrame where
  | subscriptionConfirmed (pollId : String)
  | pong
  | errorFrame
deriving Repr, DecidableEq

/-- An effect of handling one message: sending a frame, or closing the
connection. -/
inductive WsEffect where
  | sendFrame (f : OutFrame)
  | closeConn
deriving Repr, DecidableEq

/-- `sanitizeWebSocketMessage` on `type` (part_004 line 212): keep only letters and
underscores. -/
def sanitizeType (s : String) : String :=
  String.mk (s.toList.filter (fun c => c.isAlpha || c == '_'))

/-- `sanitizeWebSocketMessage` on `pollId` (part_004 line 208): keep only hex
characters. -/
def sanitizePollId (s : String) : String :=
  String.mk (s.toList.filter isHexDigit)

/-- The `ws.on('message')` handler (part_004 lines 129-185), taking the
connection's current subscription and returning the effects emitted and the
subscription afterwards. In source order: the size check, `JSON.parse`, the
`type` presence/string check (an empty string is falsy and also throws), the
sanitizing step, then the switch — `subscribe` requiring a truthy string
`pollId` (empty after sanitizing is falsy and throws), `unsubscribe` clearing
the subscription, `ping` answering `pong`, and a silent `default`. Every thrown
error is caught and answered with an error frame; nothing closes the
connection. -/
def handleMessage (sub : Option String) (m : WsInbound) :
    List WsEffect × Option String :=
  if 10000 < m.size then ([.sendFrame .errorFrame], sub)
  else
    match m.parsed with
    | none => ([.sendFrame .errorFrame], sub)
    | some d =>
      match d.type with
      | some (.str s) =>
        if s = "" then ([.sendFrame .errorFrame], sub)
        else
          let t := sanitizeType s
          if t = "subscribe" then
            match d.pollId with
            | some (.str pid) =>
              let p := sanitizePollId pid
              if p = "" then ([.sendFrame .errorFrame], sub)
              else ([.sendFrame (.subscriptionConfirmed p)], some p)
            | _ => ([.sendFrame .errorFrame], sub)
          else if t = "unsubscribe" then ([], none)
          else if t = "ping" then ([.sendFrame .pong], sub)
          else ([], sub)
      | _ => ([.sendFrame .errorFrame], sub)

/-- An inbound message the handler's validation rejects: oversized, unparsable,
or with a missing, non-string or empty (falsy) `type` field. -/
def WsInbound.malformed (m : WsInbound) : Bool :=
  (10000 < m.size : Bool) ||
    match m.parsed with
    | none => true
    | some d =>
      match d.type with
      | some (.str s) => s == ""
      | _ => true

/-- Whether a route response is any failure (rate limited or a handler error). -/
def VotesRouteResponse.isFailure : VotesRouteResponse → Bool
  | .rateLimited _ => true
  | .err _ => true
  | .ok _ => false

/-! ## Concrete fixtures used by witnesses and counterexamples -/

/-- A published poll with no expiry. -/
def pollLive : Poll := ⟨1, "q1", 7, true, none, false, true, false⟩

/-- A published poll that expired at t=50 with `autoArchive` and no voting
override. -/
def pollGone : Poll := ⟨2, "q2", 7, true, some 50, false, true, true⟩

/-- A published poll that expired at t=50 but allows voting after expiry. -/
def pollGrace : Poll := ⟨3, "q3", 7, true, some 50, true, true, false⟩

/-- An unpublished draft poll. -/
def pollDraft : Poll := ⟨4, "q4", 7, false, none, false, true, false⟩

/-- A published poll whose `expiresAt` is exactly the reference instant t=100. -/
def pollEdge : Poll := ⟨5, "q5", 7, true, some 100, false, true, false⟩

/-- An unpublished poll whose expiry t=50 already passed (an archived poll). -/
def pollShelved : Poll := ⟨6, "q6", 7, false, some 50, false, true, false⟩

/-- The sole option of `pollLive`. -/
def optLive : PollOption := ⟨10, 1, "a"⟩

/-- The sole option of `pollGrace`. -/
def optGrace : PollOption := ⟨30, 3, "c"⟩

/-- The fixture store: the six polls above, their options, and no votes yet. -/
def dbMain : DB :=
  ⟨[pollLive, pollGone, pollGrace, pollDraft, pollEdge, pollShelved], [optLive, optGrace], []⟩

/-- A well-formed 24-character hexadecimal poll id. -/
def hexPollId : String := "aaaaaaaaaaaaaaaaaaaaaaaa"

/-- A second well-formed poll id, distinct from `hexPollId`. -/
def hexPollId2 : String := "bbbbbbbbbbbbbbbbbbbbbbbb"

/-- Four demo connections: subscribed to `hexPollId` (send ok), subscribed to
`hexPollId2`, subscribed to `hexPollId` but with a throwing send, and a closed
connection subscribed to `hexPollId`. -/
def demoClients : List WsClient :=
  [⟨true, some hexPollId, false⟩,
   ⟨true, some hexPollId2, false⟩,
   ⟨true, some hexPollId, true⟩,
   ⟨false, some hexPollId, false⟩]

/-! ## Helper lemmas -/

/-- The vote handler really is its read-only check phase followed by the insert:
a check-phase error is returned unchanged with the store untouched, and when the
checks pass a duplicate-key rejection of the insert surfaces through the catch
block as `saveFailed`, again leaving the store untouched. -/
theorem submitVote_is_check_then_insert (now : Int) (db : DB) (r : VoteRequest) :
    (∀ e, submitVoteChecks now db r = some e →
      submitVote now db r.poll r.option r.user = ⟨.error e, db, []⟩)
    ∧ (submitVoteChecks now db r = none →
      ∀ m, db.insertVote ⟨r.user, r.poll, r.option⟩ = .error m →
        submitVote now db r.poll r.option r.user = ⟨.error (.saveFailed m), db, []⟩) := by
  unfold submitVote submitVoteChecks
  rcases hfp : db.findPoll r.poll with _ | pollDoc
  · simp
  · simp only [hfp]
    by_cases hpub : (!pollDoc.isPublished) = true
    · simp [hpub]
    · simp only [hpub, if_false, Bool.not_eq_true] at *
      by_cases hexp : (pollDoc.isExpired now && !pollDoc.allowVotingAfterExpiry) = true
      · simp [hexp]
      · simp only [hexp, if_false]
        rcases hop : db.findOption r.option r.poll with _ | opt
        · simp [hop]
        · simp only [hop, Option.isNone_some]
          rcases hv : db.findVote r.user r.poll with _ | v
          · simp only [hv, Option.isSome_none]
            rcases hins : db.insertVote ⟨r.user, r.poll, r.option⟩ with m | db'
            · simp [hins]
            · simp [hins]
          · simp [hv]

/-- On any error result the handler leaves the store untouched and broadcasts
nothing: every error return in votes.js happens either before `vote.save()` or
in the catch block of a failed save. -/
theorem submitVote_error_unchanged (now : Int) (db : DB) (pollId optionId userId : Nat) :
    (∃ b, (submitVote now db pollId optionId userId).result = .ok b)
    ∨ ((submitVote now db pollId optionId userId).db = db
        ∧ (submitVote now db pollId optionId userId).broadcasts = []) := by
  unfold submitVote
  rcases db.findPoll pollId with _ | pollDoc
  · simp
  · by_cases hpub : (!pollDoc.isPublished) = true
    · simp [hpub]
    · simp only [hpub, if_false]
      by_cases hexp : (pollDoc.isExpired now && !pollDoc.allowVotingAfterExpiry) = true
      · simp [hexp]
      · simp only [hexp, if_false]
        rcases db.findOption optionId pollId with _ | opt
        · simp
        · rcases db.findVote userId pollId with _ | v
          · rcases db.insertVote ⟨userId, pollId, optionId⟩ with m | db'
            · simp
            · simp
          · simp

/-! ## Claim theorems -/

/-- C1: for a (voterId, pollId) pair, concurrent submitVote calls should be
arbitrated by a single atomic check-and-insert with a uniqueness violation
reported as Conflict. The code instead runs a separate `Vote.findOne` followed
by `vote.save()`: under the interleaving in which both requests pass the
duplicate check before either insert commits, one request succeeds and the
other's storage-level uniqueness violation surfaces through the generic catch
block (`saveFailed`, HTTP 400 with the raw driver message) — not as the
handler's duplicate-vote Conflict branch (`alreadyVoted`), which only a
sequential second request reaches. -/
theorem C1_race_check_then_insert :
    submitVoteChecks 100 dbMain ⟨1, 10, 7⟩ = none
    ∧ (raceOutcome 100 dbMain ⟨1, 10, 7⟩ ⟨1, 10, 7⟩).1 = .ok
    ∧ (raceOutcome 100 dbMain ⟨1, 10, 7⟩ ⟨1, 10, 7⟩).2.1
        = .err (.saveFailed "E11000 duplicate key")
    ∧ (raceOutcome 100 dbMain ⟨1, 10, 7⟩ ⟨1, 10, 7⟩).2.1 ≠ .err .alreadyVoted
    ∧ VoteError.httpStatus (.saveFailed "E11000 duplicate key") = 400
    ∧ (submitVote 100 (raceOutcome 100 dbMain ⟨1, 10, 7⟩ ⟨1, 10, 7⟩).2.2 1 10 7).result
        = .error .alreadyVoted := by
  decide

/-- C3: publish on an already-published poll and archive on a non-expired or
already-unpublished poll fail with the InvalidState responses and leave the
store unchanged — but archive on a legitimately archivable poll (published and
expired) also fails: the pre-save hook rejects any save of a poll whose
`expiresAt` is not in the future, so the success path that would set
`isPublished := false` is unreachable. -/
theorem C3_publish_archive_guards :
    publishRoute 100 dbMain 1 7 = (.invalidState "Poll is already published", dbMain)
    ∧ archiveRoute 100 dbMain 1 7 = (.invalidState "Only expired polls can be archived", dbMain)
    ∧ archiveRoute 100 dbMain 4 7 = (.invalidState "Only expired polls can be archived", dbMain)
    ∧ archiveRoute 100 dbMain 6 7 = (.invalidState "Poll is already archived", dbMain)
    ∧ pollGone.isPublished = true
    ∧ pollGone.isExpired 100 = true
    ∧ archiveRoute 100 dbMain 2 7 = (.saveError "Expiration date must be in the future", dbMain) := by
  decide

/-- C7: the vote rate limiter in force (`voteLimiter = enhancedVoteLimiter`)
allows 5 actions per 60 s window, so the 4th action inside the window is
allowed, not rejected; when the limit is exceeded (6th action) the rejection's
retryAfter is `Math.ceil(resetTime / 1000) - nowSec` with `resetTime` already in
seconds, which is negative, not the remaining seconds. After the window elapses
the counter does restart at 1 and the action is allowed again. -/
theorem C7_vote_limiter_eval :
    voteLimiterRun "vote:7:1" [1000, 1000, 1000, 1000, 1000, 1000, 1061] []
      = [.allowed, .allowed, .allowed, .allowed, .allowed, .limited (-998), .allowed]
    ∧ ((-998 : Int) < 0)
    ∧ ceilDiv1000 1060 = 2
    ∧ (voteLimiterStep 1061 false [("vote:7:1", ⟨6, 1060⟩)] "vote:7:1").2.lookup "vote:7:1"
        = some ⟨1, 1121⟩ := by
  decide

/-- C9: at the instant `now = expiresAt` a published poll's computed status is
still `active`, not `expired`: the `status` and `isExpired` virtuals use the
strict comparison `new Date() > this.expiresAt`, so `expiresAt ≤ now` is not the
expiry condition. -/
theorem C9_boundary_still_active :
    pollEdge.isPublished = true
    ∧ pollEdge.expiresAt = some 100
    ∧ ((100 : Int) ≤ 100)
    ∧ Poll.status 100 pollEdge ≠ PollStatus.expired
    ∧ Poll.status 100 pollEdge = PollStatus.active
    ∧ pollEdge.isExpired 100 = false := by
  decide

/-- C9 (amended): for a published poll with `expiresAt = some t`, the computed
state is `expired` exactly when `t < now` (strictly past), `active` otherwise —
in particular at `now = t` the poll is still active — and `isExpired` agrees. -/
theorem C9_status_strictly_past (now t : Int) (p : Poll)
    (hpub : p.isPublished = true) (hexp : p.expiresAt = some t) :
    (p.status now = PollStatus.expired ↔ t < now)
    ∧ (p.status now = PollStatus.active ↔ ¬t < now)
    ∧ p.isExpired now = decide (t < now) := by
  unfold Poll.status Poll.isExpired
  rw [hexp]
  by_cases h : t < now <;> simp [hpub, h]

/-- Witness for C9_status_strictly_past at the fixture poll expiring at t=100. -/
theorem C9_status_strictly_past_witness :
    Poll.status 100 pollEdge = PollStatus.active
    ∧ Poll.status 101 pollEdge = PollStatus.expired :=
  ⟨(C9_status_strictly_past 100 100 pollEdge rfl rfl).2.1.mpr (by decide),
   (C9_status_strictly_past 101 100 pollEdge rfl rfl).1.mpr (by decide)⟩

/-- If every poll in the list has an `expiresAt` that is not in the future, the
cleanup loop can never commit an archive: the first `autoArchive` poll's save is
rejected by the pre-save hook and aborts the loop, and polls without
`autoArchive` are skipped — either way the store comes back unchanged. -/
theorem cleanupLoop_fst_unchanged (now : Int) :
    ∀ (l : List Poll) (db : DB),
      (∀ p ∈ l, ∃ t, p.expiresAt = some t ∧ t ≤ now) →
      (cleanupLoop now l db).1 = db := by
  intro l
  induction l with
  | nil => intro db _; rfl
  | cons p rest ih =>
    intro db hall
    obtain ⟨t, ht, htle⟩ := hall p (List.mem_cons_self p rest)
    unfold cleanupLoop
    by_cases ha : p.autoArchive = true
    · simp only [ha, if_true]
      unfold savePoll
      simp only [ht]
      simp [htle]
    · simp only [Bool.not_eq_true] at ha
      simp only [ha]
      exact ih db (fun q hq => hall q (List.mem_cons_of_mem p hq))

/-- Every poll matched by `findExpired` has an `expiresAt ≤ now`. -/
theorem findExpired_expiry_past (now : Int) (db : DB) :
    ∀ p ∈ findExpired now db, ∃ t, p.expiresAt = some t ∧ t ≤ now := by
  intro p hp
  rw [findExpired, List.mem_filter] at hp
  rcases hp with ⟨-, hcond⟩
  rcases hexp : p.expiresAt with _ | t
  · rw [hexp] at hcond; simp at hcond
  · refine ⟨t, rfl, ?_⟩
    rw [hexp] at hcond
    simpa using (Bool.and_elim_right hcond)

/-- C6: the background sweep never archives anything. Every poll `findExpired`
returns has `expiresAt ≤ now`, so the pre-save hook rejects each attempted
archive save; the first `autoArchive` poll's failure aborts the whole
unprotected `for…of` loop (so later expired polls are not even attempted), and
the store always comes back exactly as it was. Concretely, on the fixture store
at t=100 the sweep finds 3 expired polls, errors on the first `autoArchive` one,
and changes nothing. -/
theorem C6_sweep_never_archives :
    (∀ (now : Int) (db : DB), (cleanupExpiredPolls now db).1 = db)
    ∧ cleanupExpiredPolls 100 dbMain
        = (dbMain, some "Expiration date must be in the future", 3)
    ∧ pollGone.autoArchive = true
    ∧ pollGone ∈ findExpired 100 dbMain := by
  refine ⟨?_, by decide, by decide, by decide⟩
  intro now db
  unfold cleanupExpiredPolls
  exact cleanupLoop_fst_unchanged now (findExpired now db) db (findExpired_expiry_past now db)

/-- C2: `canVote` is exactly `isPublished AND (not expired OR
allowVotingAfterExpiry)`; the handler rejects an unpublished poll with the
InvalidState branch for unpublished polls, rejects an expired poll without the
override with the InvalidState branch for expired polls, and — when the poll is
expired with the override and the option and duplicate checks pass — accepts
the vote. -/
theorem C2_canVote_gating :
    (∀ (now : Int) (p : Poll),
      p.canVote now = (p.isPublished && (!p.isExpired now || p.allowVotingAfterExpiry)))
    ∧ (∀ (now : Int) (db : DB) (pollId optionId userId : Nat) (p : Poll),
        db.findPoll pollId = some p → p.isPublished = false →
        (submitVote now db pollId optionId userId).result = .error .notPublished)
    ∧ (∀ (now : Int) (db : DB) (pollId optionId userId : Nat) (p : Poll),
        db.findPoll pollId = some p → p.isPublished = true →
        p.isExpired now = true → p.allowVotingAfterExpiry = false →
        (submitVote now db pollId optionId userId).result = .error .pollExpired)
    ∧ (∀ (now : Int) (db : DB) (pollId optionId userId : Nat) (p : Poll) (o : PollOption),
        db.findPoll pollId = some p → p.isPublished = true →
        p.isExpired now = true → p.allowVotingAfterExpiry = true →
        db.findOption optionId pollId = some o →
        db.findVote userId pollId = none →
        ∃ b, (submitVote now db pollId optionId userId).result = .ok b) := by
  refine ⟨?_, ?_, ?_, ?_⟩
  · intro now p
    unfold Poll.canVote
    by_cases hpub : p.isPublished = true
    · by_cases hexp : p.isExpired now = true <;> simp [hpub, hexp]
    · simp only [Bool.not_eq_true] at hpub; simp [hpub]
  · intro now db pollId optionId userId p hfp hpub
    unfold submitVote
    simp [hfp, hpub]
  · intro now db pollId optionId userId p hfp hpub hexp hallow
    unfold submitVote
    simp [hfp, hpub, hexp, hallow]
  · intro now db pollId optionId userId p o hfp hpub hexp hallow hop hv
    have hins : db.insertVote ⟨userId, pollId, optionId⟩
        = .ok { db with votes := db.votes ++ [⟨userId, pollId, optionId⟩] } := by
      unfold DB.insertVote
      have : db.votes.any (fun w => w.user == userId && w.poll == pollId) = false := by
        rw [DB.findVote, List.find?_eq_none] at hv
        simp only [List.any_eq_false]
        intro w hw
        exact hv w hw
      simp [this]
    unfold submitVote
    simp [hfp, hpub, hexp, hallow, hop, hv, hins]

/-- Witness for C2_canVote_gating: a draft poll is rejected as unpublished, the
expired poll without override is rejected as expired, and the expired poll with
the override accepts the vote. -/
theorem C2_canVote_gating_witness :
    (submitVote 100 dbMain 4 10 7).result = .error .notPublished
    ∧ (submitVote 100 dbMain 2 10 7).result = .error .pollExpired
    ∧ ∃ b, (submitVote 100 dbMain 3 30 7).result = .ok b :=
  ⟨C2_canVote_gating.2.1 100 dbMain 4 10 7 pollDraft (by decide) (by decide),
   C2_canVote_gating.2.2.1 100 dbMain 2 10 7 pollGone (by decide) (by decide)
     (by decide) (by decide),
   C2_canVote_gating.2.2.2 100 dbMain 3 30 7 pollGrace optGrace (by decide) (by decide)
     (by decide) (by decide) (by decide) (by decide)⟩

/-- C5 counterexample: a vote for a nonexistent option of an existing published
poll (and likewise for an option belonging to a different poll) is answered by
the 400 "Invalid poll option" branch, not by the 404 NotFound kind that the
missing-poll case uses. -/
theorem C5_option_absent_not_404 :
    (submitVote 100 dbMain 1 99 7).result = .error .invalidOption
    ∧ (submitVote 100 dbMain 1 30 7).result = .error .invalidOption
    ∧ VoteError.httpStatus .invalidOption = 400
    ∧ VoteError.httpStatus .pollNotFound = 404
    ∧ (400 : Nat) ≠ 404
    ∧ (dbMain.findOption 30 1).isNone = true
    ∧ dbMain.options.any (fun o => o.id == 30) = true := by
  decide

/-- C5 (amended): a missing poll fails with the 404 NotFound branch; a missing
option, or an option whose pollId differs from the given pollId, fails through
the single `PollOption.findOne({_id, poll})` branch with a 400. -/
theorem C5_notfound_behaviour :
    (∀ (now : Int) (db : DB) (pollId optionId userId : Nat),
      db.findPoll pollId = none →
        (submitVote now db pollId optionId userId).result = .error .pollNotFound
        ∧ VoteError.httpStatus .pollNotFound = 404)
    ∧ (∀ (now : Int) (db : DB) (pollId optionId userId : Nat) (p : Poll),
        db.findPoll pollId = some p → p.canVote now = true →
        db.findOption optionId pollId = none →
          (submitVote now db pollId optionId userId).result = .error .invalidOption
          ∧ VoteError.httpStatus .invalidOption = 400) := by
  constructor
  · intro now db pollId optionId userId hfp
    unfold submitVote
    simp [hfp, VoteError.httpStatus]
  · intro now db pollId optionId userId p hfp hcv hop
    unfold Poll.canVote at hcv
    by_cases hpub : p.isPublished = true
    · unfold submitVote
      by_cases hexp : p.isExpired now = true
      · simp [hpub, hexp] at hcv
        simp [hfp, hpub, hexp, hcv, hop, VoteError.httpStatus]
      · simp only [Bool.not_eq_true] at hexp
        simp [hfp, hpub, hexp, hop, VoteError.httpStatus]
    · simp only [Bool.not_eq_true] at hpub
      rw [hpub] at hcv
      simp at hcv

/-- Witness for C5_notfound_behaviour: the missing poll id 9 gives the 404
branch; the missing option 99 of the live poll gives the 400 branch. -/
theorem C5_notfound_behaviour_witness :
    (submitVote 100 dbMain 9 10 7).result = .error .pollNotFound
    ∧ (submitVote 100 dbMain 1 99 7).result = .error .invalidOption :=
  ⟨(C5_notfound_behaviour.1 100 dbMain 9 10 7 (by decide)).1,
   (C5_notfound_behaviour.2 100 dbMain 1 99 7 pollLive (by decide) (by decide)
     (by decide)).1⟩

/-- C10: whenever the vote route answers with any failure — rate limited,
missing poll, unpublished, expired without override, bad option, duplicate
vote, or a failed save — the store is exactly what it was and no broadcast is
issued. -/
theorem C10_failed_vote_leaves_state (now : Int) (nowSec : Nat) (isAdmin : Bool)
    (st : RateStore) (db : DB) (pollId optionId userId : Nat)
    (hfail : (postVoteRoute now nowSec isAdmin st db pollId optionId userId).response.isFailure
      = true) :
    (postVoteRoute now nowSec isAdmin st db pollId optionId userId).db = db
    ∧ (postVoteRoute now nowSec isAdmin st db pollId optionId userId).broadcasts = [] := by
  unfold postVoteRoute at *
  rcases hrl : voteLimiterStep nowSec isAdmin st
      ("vote:" ++ toString userId ++ ":" ++ toString pollId) with ⟨d, st'⟩
  rcases d with _ | r
  · simp only [hrl] at hfail ⊢
    rcases hsv : (submitVote now db pollId optionId userId).result with e | b
    · rcases submitVote_error_unchanged now db pollId optionId userId with ⟨b, hb⟩ | hunch
      · rw [hsv] at hb; cases hb
      · simp [hsv, hunch.1, hunch.2]
    · simp [hsv, VotesRouteResponse.isFailure] at hfail
  · simp [hrl]

/-- Witness for C10_failed_vote_leaves_state: a vote on the draft poll fails and
leaves the fixture store untouched with no broadcast. -/
theorem C10_failed_vote_leaves_state_witness :
    (postVoteRoute 100 0 false [] dbMain 4 10 7).db = dbMain
    ∧ (postVoteRoute 100 0 false [] dbMain 4 10 7).broadcasts = [] :=
  C10_failed_vote_leaves_state 100 0 false [] dbMain 4 10 7 (by decide)

/-- The broadcast loop visits every client regardless of earlier failures: its
outcome is exactly the indexed clients that are open, subscribed to the poll
and whose send succeeds, each receiving the payload stamped with the server
timestamp, with the count equal to the number of those deliveries. -/
theorem broadcastLoop_spec (now : Int) (pid data : String) :
    ∀ (cs : List WsClient) (i : Nat),
      broadcastLoop now pid data cs i =
        (((List.enumFrom i cs).filter
            (fun ic => (ic.2.opened && ic.2.pollId == some pid) && !ic.2.sendFails)).length,
         ((List.enumFrom i cs).filter
            (fun ic => (ic.2.opened && ic.2.pollId == some pid) && !ic.2.sendFails)).map
            (fun ic => (ic.1, (⟨data, now⟩ : BroadcastFrame)))) := by
  intro cs
  induction cs with
  | nil => intro i; rfl
  | cons c cs ih =>
    intro i
    unfold broadcastLoop
    rw [ih (i + 1)]
    by_cases h1 : (c.opened && c.pollId == some pid) = true
    · by_cases h2 : c.sendFails = true
      · simp [List.enumFrom, h1, h2]
      · simp only [Bool.not_eq_true] at h2
        simp [List.enumFrom, h1, h2]
    · simp only [Bool.not_eq_true] at h1
      simp [List.enumFrom, h1]

/-- C4: `broadcastToPoll` sends nothing and returns 0 for a malformed poll id;
for a well-formed id it delivers the payload stamped with the server timestamp
to exactly the open registered connections whose subscription equals the poll
id and whose send does not throw (a throwing send is caught and skipped without
aborting the rest), and returns the count of those successful deliveries. -/
theorem C4_broadcast_delivery (now : Int) (pid data : String) (clients : List WsClient) :
    (isValidObjectId pid = false → broadcastToPoll now pid data clients = (0, []))
    ∧ (isValidObjectId pid = true →
        (broadcastToPoll now pid data clients).2
          = ((List.enumFrom 0 clients).filter
              (fun ic => (ic.2.opened && ic.2.pollId == some pid) && !ic.2.sendFails)).map
              (fun ic => (ic.1, (⟨data, now⟩ : BroadcastFrame)))
        ∧ (broadcastToPoll now pid data clients).1
          = ((List.enumFrom 0 clients).filter
              (fun ic => (ic.2.opened && ic.2.pollId == some pid) && !ic.2.sendFails)).length) := by
  constructor
  · intro h
    unfold broadcastToPoll
    simp [h]
  · intro h
    unfold broadcastToPoll
    simp [h, broadcastLoop_spec]

/-- Witness for C4_broadcast_delivery on the demo registry: an invalid id
reaches nobody; a broadcast to `hexPollId` is delivered only to the open,
non-failing subscriber of that poll (client 0) — not to the `hexPollId2`
subscriber, the throwing client or the closed client — and counts 1. -/
theorem C4_broadcast_delivery_witness :
    broadcastToPoll 5 "xyz" "payload" demoClients = (0, [])
    ∧ (broadcastToPoll 5 hexPollId "payload" demoClients).1 = 1
    ∧ (broadcastToPoll 5 hexPollId "payload" demoClients).2 = [(0, ⟨"payload", 5⟩)] := by
  refine ⟨(C4_broadcast_delivery 5 "xyz" "payload" demoClients).1 (by decide), ?_, ?_⟩
  · rw [((C4_broadcast_delivery 5 hexPollId "payload" demoClients).2 (by decide)).2]
    decide
  · rw [((C4_broadcast_delivery 5 hexPollId "payload" demoClients).2 (by decide)).1]
    decide

/-- C8 counterexample: a small, well-formed message whose kind is not one of
subscribe/unsubscribe/ping falls into the silent `default` branch — the server
sends no frame at all, in particular no error frame (the connection is indeed
not closed). -/
theorem C8_unknown_kind_silent :
    handleMessage none ⟨10, some ⟨some (.str "nonsense"), none⟩⟩ = ([], none)
    ∧ sanitizeType "nonsense" = "nonsense"
    ∧ "nonsense" ∉ (["subscribe", "unsubscribe", "ping"] : List String) := by
  decide

/-- C8 (amended): a malformed inbound message — oversized, unparsable JSON, or
with a missing, non-string or empty `type` — is answered with exactly one
error frame; a well-formed message whose sanitized kind is not
subscribe/unsubscribe/ping is silently ignored (no reply frame); and in every
case the handler never closes the connection. -/
theorem C8_malformed_error_frames (sub : Option String) (m : WsInbound) :
    (m.malformed = true → handleMessage sub m = ([.sendFrame .errorFrame], sub))
    ∧ (∀ (d : ParsedMsg) (s : String),
        m.size ≤ 10000 → m.parsed = some d → d.type = some (.str s) → ¬s = "" →
        sanitizeType s ∉ (["subscribe", "unsubscribe", "ping"] : List String) →
        handleMessage sub m = ([], sub))
    ∧ WsEffect.closeConn ∉ (handleMessage sub m).1 := by
  refine ⟨?_, ?_, ?_⟩
  · intro hm
    unfold WsInbound.malformed at hm
    unfold handleMessage
    by_cases hs : 10000 < m.size
    · simp [hs]
    · simp only [hs, decide_False, Bool.false_or] at hm
      rcases hp : m.parsed with _ | d
      · simp [hp, hs]
      · rcases ht : d.type with _ | v
        · simp [hp, ht, hs]
        · rcases v with s | _
          · simp only [hp, ht, beq_iff_eq] at hm
            simp [hp, ht, hs, hm]
          · simp [hp, ht, hs]
  · intro d s hsize hp ht hne hmem
    have hs : ¬10000 < m.size := by omega
    simp only [List.mem_cons, List.not_mem_nil, or_false, not_or] at hmem
    obtain ⟨h1, h2, h3⟩ := hmem
    unfold handleMessage
    simp [hs, hp, ht, hne, h1, h2, h3]
  · unfold handleMessage
    by_cases hs : 10000 < m.size
    · simp [hs]
    · rcases hp : m.parsed with _ | d
      · simp [hp, hs]
      · rcases ht : d.type with _ | v
        · simp [hp, ht, hs]
        · rcases v with s | _
          · by_cases hne : s = ""
            · simp [hp, ht, hs, hne]
            · by_cases h1 : sanitizeType s = "subscribe"
              · rcases hpid : d.pollId with _ | w
                · simp [hp, ht, hs, hne, h1, hpid]
                · rcases w with pid | _
                  · by_cases hpe : sanitizePollId pid = ""
                    · simp [hp, ht, hs, hne, h1, hpid, hpe]
                    · simp [hp, ht, hs, hne, h1, hpid, hpe]
                  · simp [hp, ht, hs, hne, h1, hpid]
              · by_cases h2 : sanitizeType s = "unsubscribe"
                · simp [hp, ht, hs, hne, h1, h2]
                · by_cases h3 : sanitizeType s = "ping"
                  · simp [hp, ht, hs, hne, h1, h2, h3]
                  · simp [hp, ht, hs, hne, h1, h2, h3]
          · simp [hp, ht, hs]

/-- Witness for C8_malformed_error_frames: an oversized ping, an unparsable
message and a missing-type message each draw one error frame; a well-formed
`vote_now` message draws no reply and keeps the subscription. -/
theorem C8_malformed_error_frames_witness :
    handleMessage none ⟨20000, some ⟨some (.str "ping"), none⟩⟩
      = ([.sendFrame .errorFrame], none)
    ∧ handleMessage none ⟨10, none⟩ = ([.sendFrame .errorFrame], none)
    ∧ handleMessage (some "ff") ⟨10, some ⟨none, none⟩⟩ = ([.sendFrame .errorFrame], some "ff")
    ∧ handleMessage (some "ff") ⟨10, some ⟨some (.str "vote_now"), none⟩⟩ = ([], some "ff") :=
  ⟨(C8_malformed_error_frames none ⟨20000, some ⟨some (.str "ping"), none⟩⟩).1 (by decide),
   (C8_malformed_error_frames none ⟨10, none⟩).1 (by decide),
   (C8_malformed_error_frames (some "ff") ⟨10, some ⟨none, none⟩⟩).1 (by decide),
   (C8_malformed_error_frames (some "ff") ⟨10, some ⟨some (.str "vote_now"), none⟩⟩).2.1
     ⟨some (.str "vote_now"), none⟩ "vote_now" (by decide) rfl rfl (by decide) (by decide)⟩

end Polling
